import Mathlib

/-!
# Verification of the Supermarketbot-RPA billing core

Shallow embedding of the billing and inventory core of the
`SuperMarket_Bot_2` package: the data model (`models.py`), the
catalog/bill store (`database.py`), the billing transaction
(`billing_service.py`) and the inventory operations
(`inventory_service.py`).

Modelling conventions:
* Python decimal/float amounts are embedded as exact rationals `ℚ`
  (the spec states all monetary identities as exact equalities, and
  every accumulation is modelled in the code's own evaluation order).
* Python `int` quantities are embedded as `Int` (they may be negative
  in principle; the code never checks sign inside `create_bill`).
* A Python dict is embedded as an association list with dict
  semantics: lookup returns the first binding, assignment replaces
  the first binding in place or appends a new one at the end
  (insertion order preserved, as for Python dicts).
* `datetime.now()` and `uuid.uuid4()` are nondeterministic inputs of
  `create_bill`; they are passed as explicit parameters.
* A failure that the Python code signals by `return None` after a
  `logger.error(...)` call is embedded as `Except.error e` where `e`
  is a structured value carrying exactly the data interpolated into
  the error message.
* `DatabaseManager.update_product` persists after every call; the
  catalog component of each result is therefore the persisted state,
  including the partial updates performed before a mid-loop failure.
-/

namespace SuperMarketBot

/-- `models.Product`: id, name, category, price, quantity,
min_stock_level (default 50), tax_rate (default 0). -/
structure Product where
  id : String
  name : String
  category : String
  price : ℚ
  quantity : Int
  min_stock_level : Int := 50
  tax_rate : ℚ := 0
deriving Repr, DecidableEq

/-- `models.Customer`: name, phone, optional email. -/
structure Customer where
  name : String
  phone : String
  email : Option String := none
deriving Repr, DecidableEq

/-- `models.BillItem`: one line of a bill, carrying its own snapshot
of product name, unit price, line total and tax amount. -/
structure BillItem where
  product_id : String
  product_name : String
  quantity : Int
  unit_price : ℚ
  total_price : ℚ
  tax_amount : ℚ := 0
deriving Repr, DecidableEq

/-- A creation timestamp: `date` is the calendar date (as produced by
Python's `datetime.date()`), `time` the time of day within it. -/
structure DateTime where
  date : Int
  time : Nat := 0
deriving Repr, DecidableEq

/-- `models.Bill`: id, customer, ordered line items, subtotal, tax
amount, total amount, creation timestamp, status tag. -/
structure Bill where
  id : String
  customer : Customer
  items : List BillItem
  subtotal : ℚ
  tax_amount : ℚ
  total_amount : ℚ
  created_at : DateTime
  status : String := "pending"
deriving Repr, DecidableEq

/-- `models.InventoryAlert`: a low-stock alert record. -/
structure InventoryAlert where
  product_id : String
  product_name : String
  current_quantity : Int
  min_required : Int
  suggested_order_quantity : Int
deriving Repr, DecidableEq

/-- The product catalog: a Python dict from product id to product,
embedded as an insertion-ordered association list. -/
abbrev Catalog : Type := List (String × Product)

/-- Dict lookup `products[pid]` / `pid in products`: the first
binding of `pid`, if any. -/
def findProduct : Catalog → String → Option Product
  | [], _ => none
  | (k, v) :: rest, pid => if pid = k then some v else findProduct rest pid

/-- Dict assignment `products[k] = v`: replace the first binding of
`k` in place, or append a new binding at the end. -/
def dictInsert : Catalog → String → Product → Catalog
  | [], k, v => [(k, v)]
  | (k', v') :: rest, k, v =>
      if k = k' then (k, v) :: rest else (k', v') :: dictInsert rest k v

/-- `DatabaseManager.update_product`: load all products, set
`products[product.id] = product`, save all products. -/
def update_product (cat : Catalog) (product : Product) : Catalog :=
  dictInsert cat product.id product

/-- A `create_bill` failure, carrying exactly the data the code
interpolates into the corresponding `logger.error` message:
`"Product {product_id} not found"` for a missing product, and
`"Insufficient stock for {product.name}. Available: {product.quantity}"`
when the requested quantity exceeds the quantity on hand. -/
inductive BillError where
  | productNotFound (product_id : String)
  | insufficientStock (product_name : String) (available : Int)
deriving Repr, DecidableEq

instance {ε α : Type} [DecidableEq ε] [DecidableEq α] :
    DecidableEq (Except ε α) := fun x y =>
  match x, y with
  | Except.error a, Except.error b =>
      if h : a = b then isTrue (by rw [h])
      else isFalse fun hh => h (by injection hh)
  | Except.error _, Except.ok _ => isFalse fun hh => Except.noConfusion hh
  | Except.ok _, Except.error _ => isFalse fun hh => Except.noConfusion hh
  | Except.ok a, Except.ok b =>
      if h : a = b then isTrue (by rw [h])
      else isFalse fun hh => h (by injection hh)

/-- The `for product_id, quantity in items_purchased.items()` loop of
`BillingService.create_bill` (billing_service.py lines 36-65): for each
requested entry, look the product up in the running in-memory dict,
fail if absent or if `product.quantity < quantity`, otherwise build
the `BillItem`, accumulate subtotal and tax, decrement the product's
quantity and persist via `db.update_product`.  Returns the accumulated
line items / subtotal / total tax on success and the catalog as
persisted when the loop stops (partial updates included on failure). -/
def createBillLoop :
    Catalog → List (String × Int) → List BillItem → ℚ → ℚ →
      Except BillError (List BillItem × ℚ × ℚ) × Catalog
  | cat, [], bill_items, subtotal, total_tax =>
      (Except.ok (bill_items, subtotal, total_tax), cat)
  | cat, (product_id, quantity) :: rest, bill_items, subtotal, total_tax =>
      match findProduct cat product_id with
      | none => (Except.error (BillError.productNotFound product_id), cat)
      | some product =>
          if product.quantity < quantity then
            (Except.error
              (BillError.insufficientStock product.name product.quantity), cat)
          else
            let unit_price := product.price
            let item_total := unit_price * (quantity : ℚ)
            let tax_amount := item_total * product.tax_rate
            let bill_item : BillItem :=
              { product_id := product_id
                product_name := product.name
                quantity := quantity
                unit_price := unit_price
                total_price := item_total
                tax_amount := tax_amount }
            let product2 := { product with quantity := product.quantity - quantity }
            createBillLoop (update_product cat product2) rest
              (bill_items ++ [bill_item]) (subtotal + item_total)
              (total_tax + tax_amount)

/-- `BillingService.create_bill`: run the loop over the requested
items, then assemble the `Bill` with `total_amount = subtotal +
total_tax`, status `"completed"`, the fresh id and the current
timestamp, and return it.  The second component is the persisted
catalog (the result of the per-line `db.update_product` calls). -/
def create_bill (newId : String) (now : DateTime) (customer : Customer)
    (cat : Catalog) (items_purchased : List (String × Int)) :
    Except BillError Bill × Catalog :=
  match createBillLoop cat items_purchased [] 0 0 with
  | (Except.error e, cat2) => (Except.error e, cat2)
  | (Except.ok (bill_items, subtotal, total_tax), cat2) =>
      (Except.ok
        { id := newId
          customer := customer
          items := bill_items
          subtotal := subtotal
          tax_amount := total_tax
          total_amount := subtotal + total_tax
          created_at := now
          status := "completed" }, cat2)

/-- `BillingService.validate_quantity`: reject a non-positive quantity
first, then load the catalog, then check existence and stock. -/
def validate_quantity (cat : Catalog) (product_id : String)
    (quantity : Int) : Bool × String :=
  if quantity ≤ 0 then (false, "Quantity must be greater than 0")
  else
    match findProduct cat product_id with
    | none => (false, "Product not found")
    | some p =>
        if p.quantity < quantity then
          (false, "Insufficient stock. Available: " ++ toString p.quantity)
        else (true, "Valid")

/-- `InventoryService.update_product_quantity`: raise (and catch,
returning `false`) on a negative new quantity; otherwise set the
product's quantity to the new value and persist, returning `true`,
or return `false` when the product does not exist. -/
def update_product_quantity (cat : Catalog) (product_id : String)
    (new_quantity : Int) : Bool × Catalog :=
  if new_quantity < 0 then (false, cat)
  else
    match findProduct cat product_id with
    | none => (false, cat)
    | some p => (true, update_product cat { p with quantity := new_quantity })

/-- `DatabaseManager.get_low_stock_products`: one alert per product
with `quantity < min_stock_level`, in catalog iteration order, with
`suggested_order_quantity = 100 - quantity`. -/
def get_low_stock_products (cat : Catalog) : List InventoryAlert :=
  (cat.map Prod.snd).filterMap fun product =>
    if product.quantity < product.min_stock_level then
      some
        { product_id := product.id
          product_name := product.name
          current_quantity := product.quantity
          min_required := product.min_stock_level
          suggested_order_quantity := 100 - product.quantity }
    else none

/-- `InventoryService.get_low_stock_alerts`: delegates to
`DatabaseManager.get_low_stock_products`. -/
def get_low_stock_alerts (cat : Catalog) : List InventoryAlert :=
  get_low_stock_products cat

/-- The first (shadowed) definition of
`InventoryService.check_stock_levels` (inventory_service.py lines
82-103), which used `suggested_order_quantity = max(50,
product.min_stock_level * 2)`.  In Python the later definition of the
same name (lines 132-150) replaces it, so this formula is dead code;
it is embedded here because the spec discusses both formulas. -/
def check_stock_levels_shadowed (cat : Catalog) : List InventoryAlert :=
  (cat.map Prod.snd).filterMap fun product =>
    if product.quantity < product.min_stock_level then
      some
        { product_id := product.id
          product_name := product.name
          current_quantity := product.quantity
          min_required := product.min_stock_level
          suggested_order_quantity := max 50 (product.min_stock_level * 2) }
    else none

/-- The dictionary returned by
`BillingService.get_daily_sales_summary`. -/
structure DailySummary where
  date : Int
  total_sales : ℚ
  total_bills : Nat
  total_items : Nat
  average_bill_value : ℚ
deriving Repr, DecidableEq

/-- `BillingService.get_daily_sales_summary`: filter the bill history
to the bills created on the given calendar date, then report the sum
of their totals, their count, their total item count, and
`total_sales / total_bills if total_bills > 0 else 0`. -/
def get_daily_sales_summary (bills : List Bill) (date : DateTime) :
    DailySummary :=
  let daily_bills := bills.filter fun bill => bill.created_at.date == date.date
  let total_sales := (daily_bills.map Bill.total_amount).sum
  let total_bills := daily_bills.length
  let total_items := (daily_bills.map fun bill => bill.items.length).sum
  { date := date.date
    total_sales := total_sales
    total_bills := total_bills
    total_items := total_items
    average_bill_value :=
      if total_bills > 0 then total_sales / (total_bills : ℚ) else 0 }

/-- `DatabaseManager.get_bill_by_id`: first bill in the history with
the given id. -/
def get_bill_by_id (bills : List Bill) (bill_id : String) : Option Bill :=
  bills.find? fun bill => bill.id == bill_id

/-- The persisted system state: the products file and the bills file. -/
structure SysState where
  products : Catalog
  bills : List Bill
deriving Repr, DecidableEq

/-- `DatabaseManager.update_product` at the system level: rewrites
only the products file. -/
def update_productS (s : SysState) (product : Product) : SysState :=
  { s with products := update_product s.products product }

/-- `BillingService.create_bill` at the system level: runs the
transaction against the products file and, on success, appends the
new bill to the bills file (`db.add_bill`). -/
def create_billS (newId : String) (now : DateTime) (customer : Customer)
    (items_purchased : List (String × Int)) (s : SysState) :
    Except BillError Bill × SysState :=
  match create_bill newId now customer s.products items_purchased with
  | (Except.error e, cat2) => (Except.error e, { s with products := cat2 })
  | (Except.ok bill, cat2) =>
      (Except.ok bill, { products := cat2, bills := s.bills ++ [bill] })

/-- The validation the code performs for one requested entry, read
off the pre-transaction catalog: the product id is bound in the
catalog and the requested quantity does not exceed the quantity on
hand. -/
def entryValid (cat : Catalog) (e : String × Int) : Bool :=
  match findProduct cat e.1 with
  | none => false
  | some p => decide (e.2 ≤ p.quantity)

/-- A well-keyed catalog: every binding maps a product id to a
product carrying that same id (the invariant maintained by
`DatabaseManager.add_product` / `update_product`, which always use
`product.id` as the key). -/
def catKeyed (cat : Catalog) : Prop := ∀ kv ∈ cat, (kv.2 : Product).id = kv.1

instance (cat : Catalog) : Decidable (catKeyed cat) :=
  List.decidableBAll _ cat

/-- All quantities on hand in the catalog are non-negative. -/
def catNonneg (cat : Catalog) : Prop := ∀ kv ∈ cat, 0 ≤ (kv.2 : Product).quantity

instance (cat : Catalog) : Decidable (catNonneg cat) :=
  List.decidableBAll _ cat

/-- A committed catalog-mutating operation of the core: a billing
transaction (`BillingService.create_bill`) or a quantity update
(`InventoryService.update_product_quantity`, which both restock
paths `add_stock` and `bulk_update_inventory` go through). -/
inductive Op where
  | bill (newId : String) (now : DateTime) (customer : Customer)
      (items_purchased : List (String × Int))
  | setQuantity (product_id : String) (new_quantity : Int)

/-- The catalog persisted after running one operation. -/
def applyOp (cat : Catalog) : Op → Catalog
  | Op.bill newId now customer items_purchased =>
      (create_bill newId now customer cat items_purchased).2
  | Op.setQuantity product_id new_quantity =>
      (update_product_quantity cat product_id new_quantity).2

/-- The catalog persisted after a sequence of committed operations. -/
def applyOps (cat : Catalog) (ops : List Op) : Catalog :=
  ops.foldl applyOp cat

/-- Modelled from the spec: the alert the spec's reorder policy
prescribes for a low-stock product, with
`suggested reorder quantity = max(50, 2 x min-stock-level)`. -/
def specAlert (product : Product) : InventoryAlert :=
  { product_id := product.id
    product_name := product.name
    current_quantity := product.quantity
    min_required := product.min_stock_level
    suggested_order_quantity := max 50 (product.min_stock_level * 2) }

/-- The alert the code actually produces for a low-stock product,
with `suggested_order_quantity = 100 - quantity`
(database.py line 189). -/
def codeAlert (product : Product) : InventoryAlert :=
  { product_id := product.id
    product_name := product.name
    current_quantity := product.quantity
    min_required := product.min_stock_level
    suggested_order_quantity := 100 - product.quantity }

/-! ### Concrete fixtures

Products taken from `DatabaseManager.initialize_default_products`
and from the spec's Scenario A (`"rice_l"` priced 3.00, tax 0.05,
quantity 100, min-stock 30). -/

def sampleRice : Product :=
  { id := "rice_l", name := "Rice 1kg", category := "Grocery",
    price := 3, quantity := 100, min_stock_level := 30, tax_rate := 1/20 }

def sampleCola : Product :=
  { id := "cld001", name := "Coca Cola 500ml", category := "Cold Drinks",
    price := 5/2, quantity := 100, min_stock_level := 40, tax_rate := 1/10 }

def sampleThing : Product :=
  { id := "p1", name := "Thing", category := "Misc",
    price := 5, quantity := 20, min_stock_level := 30, tax_rate := 0 }

/-- Scenario A catalog: just `"rice_l"`. -/
def catalogA : Catalog := [("rice_l", sampleRice)]

/-- Scenario D style catalog: two products, both with 100 on hand. -/
def catalogTwo : Catalog := [("rice_l", sampleRice), ("cld001", sampleCola)]

/-- A catalog with one low-stock product (20 on hand, minimum 30). -/
def catalogLow : Catalog := [("p1", sampleThing)]

def custA : Customer := { name := "A", phone := "5550000" }

def time0 : DateTime := { date := 20260101 }

/-- The bill Scenario A produces: one line of 10 units of
`"rice_l"`, line total 30.00, line tax 1.50, total 31.50. -/
def billA : Bill :=
  { id := "BILL1", customer := custA,
    items := [{ product_id := "rice_l", product_name := "Rice 1kg",
                quantity := 10, unit_price := 3, total_price := 30,
                tax_amount := 3/2 }],
    subtotal := 30, tax_amount := 3/2, total_amount := 63/2,
    created_at := time0, status := "completed" }

/-- The Scenario A catalog after the sale: quantity 100 → 90. -/
def catalogAfterA : Catalog := [("rice_l", { sampleRice with quantity := 90 })]

/-- A product priced 10.00 with tax rate 0, for the snapshot
immutability scenario of the spec (create a bill at price 10, then
raise the price to 20). -/
def sampleWidget : Product :=
  { id := "p10", name := "Widget", category := "Misc",
    price := 10, quantity := 5, min_stock_level := 1, tax_rate := 0 }

/-- Initial system state for the snapshot scenario: one product,
empty bill history. -/
def stateW : SysState := { products := [("p10", sampleWidget)], bills := [] }

/-- The bill the snapshot scenario creates: 1 unit of the widget at
unit price 10. -/
def billW : Bill :=
  { id := "B8", customer := custA,
    items := [{ product_id := "p10", product_name := "Widget",
                quantity := 1, unit_price := 10, total_price := 10,
                tax_amount := 0 }],
    subtotal := 10, tax_amount := 0, total_amount := 10,
    created_at := time0, status := "completed" }

/-! ## Helper lemmas -/

theorem findProduct_dictInsert (cat : Catalog) (k : String) (v : Product)
    (x : String) :
    findProduct (dictInsert cat k v) x =
      if x = k then some v else findProduct cat x := by
  induction cat with
  | nil =>
      by_cases hx : x = k <;> simp [dictInsert, findProduct, hx]
  | cons kv rest ih =>
      obtain ⟨k', v'⟩ := kv
      by_cases hk : k = k'
      · subst hk
        by_cases hx : x = k <;> simp [dictInsert, findProduct, hx]
      · by_cases hx : x = k'
        · subst hx
          simp [dictInsert, findProduct, hk, Ne.symm hk]
        · simp [dictInsert, findProduct, hk, hx, ih]

theorem mem_dictInsert {cat : Catalog} {k : String} {v : Product}
    {kv : String × Product} (h : kv ∈ dictInsert cat k v) :
    kv = (k, v) ∨ kv ∈ cat := by
  induction cat with
  | nil => simpa [dictInsert] using h
  | cons kv' rest ih =>
      by_cases hk : k = kv'.1
      · rcases kv' with ⟨k', v'⟩
        simp only [dictInsert] at h
        rw [if_pos hk] at h
        rcases List.mem_cons.mp h with h | h
        · exact Or.inl h
        · exact Or.inr (List.mem_cons_of_mem _ h)
      · rcases kv' with ⟨k', v'⟩
        simp only [dictInsert] at h
        rw [if_neg hk] at h
        rcases List.mem_cons.mp h with h | h
        · exact Or.inr (by simp [h])
        · rcases ih h with h | h
          · exact Or.inl h
          · exact Or.inr (List.mem_cons_of_mem _ h)

theorem findProduct_mem {cat : Catalog} {pid : String} {p : Product}
    (h : findProduct cat pid = some p) : (pid, p) ∈ cat := by
  induction cat with
  | nil => simp [findProduct] at h
  | cons kv rest ih =>
      obtain ⟨k, v⟩ := kv
      by_cases hk : pid = k
      · subst hk
        simp only [findProduct, eq_self_iff_true, if_true, Option.some.injEq] at h
        subst h
        exact List.mem_cons_self _ _
      · simp only [findProduct, if_neg hk] at h
        exact List.mem_cons_of_mem _ (ih h)

theorem catKeyed_findProduct {cat : Catalog} {pid : String} {p : Product}
    (hc : catKeyed cat) (h : findProduct cat pid = some p) : p.id = pid :=
  hc _ (findProduct_mem h)

theorem catKeyed_dictInsert {cat : Catalog} {k : String} {v : Product}
    (hc : catKeyed cat) (hv : v.id = k) : catKeyed (dictInsert cat k v) := by
  intro kv hkv
  rcases mem_dictInsert hkv with h | h
  · subst h
    exact hv
  · exact hc _ h

theorem catNonneg_dictInsert {cat : Catalog} {k : String} {v : Product}
    (hc : catNonneg cat) (hv : 0 ≤ v.quantity) :
    catNonneg (dictInsert cat k v) := by
  intro kv hkv
  rcases mem_dictInsert hkv with h | h
  · subst h
    exact hv
  · exact hc _ h

theorem list_all_congr {α : Type} {l : List α} {f g : α → Bool}
    (h : ∀ x ∈ l, f x = g x) : l.all f = l.all g := by
  induction l with
  | nil => rfl
  | cons a l ih =>
      simp only [List.all_cons, h a (List.mem_cons_self a l),
        ih fun x hx => h x (List.mem_cons_of_mem a hx)]

theorem createBillLoop_ok_sums :
    ∀ (items : List (String × Int)) (cat : Catalog) (acc : List BillItem)
      (st tt : ℚ) (res : List BillItem × ℚ × ℚ) (cat2 : Catalog),
      createBillLoop cat items acc st tt = (Except.ok res, cat2) →
      ∃ newItems : List BillItem,
        res.1 = acc ++ newItems ∧
        res.2.1 = st + (newItems.map BillItem.total_price).sum ∧
        res.2.2 = tt + (newItems.map BillItem.tax_amount).sum := by
  intro items
  induction items with
  | nil =>
      intro cat acc st tt res cat2 h
      simp only [createBillLoop, Prod.mk.injEq, Except.ok.injEq] at h
      exact ⟨[], by simp [← h.1]⟩
  | cons e rest ih =>
      intro cat acc st tt res cat2 h
      obtain ⟨pid, q⟩ := e
      cases hfp : findProduct cat pid with
      | none => simp [createBillLoop, hfp] at h
      | some product =>
        by_cases hlt : product.quantity < q
        · simp [createBillLoop, hfp, hlt] at h
        · simp only [createBillLoop, hfp, if_neg hlt] at h
          obtain ⟨newItems, h1, h2, h3⟩ := ih _ _ _ _ _ _ h
          refine ⟨⟨pid, product.name, q, product.price,
            product.price * (q : ℚ),
            product.price * (q : ℚ) * product.tax_rate⟩ :: newItems, ?_, ?_, ?_⟩
          · simpa using h1
          · simp only [List.map_cons, List.sum_cons, h2]
            ring
          · simp only [List.map_cons, List.sum_cons, h3]
            ring

theorem createBillLoop_ok_items :
    ∀ (items : List (String × Int)) (cat : Catalog) (acc : List BillItem)
      (st tt : ℚ) (res : List BillItem × ℚ × ℚ) (cat2 : Catalog),
      catKeyed cat →
      createBillLoop cat items acc st tt = (Except.ok res, cat2) →
      ∀ it ∈ res.1, it ∈ acc ∨
        ∃ p : Product, findProduct cat it.product_id = some p ∧
          it.product_name = p.name ∧ it.unit_price = p.price ∧
          it.total_price = p.price * (it.quantity : ℚ) ∧
          it.tax_amount = it.total_price * p.tax_rate := by
  intro items
  induction items with
  | nil =>
      intro cat acc st tt res cat2 hk h it hit
      simp only [createBillLoop, Prod.mk.injEq, Except.ok.injEq] at h
      rw [← h.1] at hit
      exact Or.inl hit
  | cons e rest ih =>
      intro cat acc st tt res cat2 hk h it hit
      obtain ⟨pid, q⟩ := e
      cases hfp : findProduct cat pid with
      | none => simp [createBillLoop, hfp] at h
      | some product =>
        by_cases hlt : product.quantity < q
        · simp [createBillLoop, hfp, hlt] at h
        · simp only [createBillLoop, hfp, if_neg hlt] at h
          have hpid : product.id = pid := catKeyed_findProduct hk hfp
          have hk2 : catKeyed
              (update_product cat { product with quantity := product.quantity - q }) :=
            catKeyed_dictInsert hk rfl
          rcases ih _ _ _ _ _ _ hk2 h it hit with hacc | ⟨p2, hfind2, hn2, hp2, htot2, htax2⟩
          · rcases List.mem_append.mp hacc with h1 | h1
            · exact Or.inl h1
            · have hbi : it = ⟨pid, product.name, q, product.price,
                  product.price * (q : ℚ),
                  product.price * (q : ℚ) * product.tax_rate⟩ := by
                simpa using h1
              subst hbi
              exact Or.inr ⟨product, hfp, rfl, rfl, rfl, rfl⟩
          · right
            rw [show update_product cat { product with quantity := product.quantity - q } =
                dictInsert cat product.id { product with quantity := product.quantity - q }
                from rfl, findProduct_dictInsert] at hfind2
            by_cases hx : it.product_id = product.id
            · rw [if_pos hx] at hfind2
              obtain rfl : p2 = { product with quantity := product.quantity - q } := by
                injection hfind2.symm
              refine ⟨product, ?_, hn2, hp2, htot2, htax2⟩
              rw [hx, hpid]
              exact hfp
            · rw [if_neg hx] at hfind2
              exact ⟨p2, hfind2, hn2, hp2, htot2, htax2⟩

theorem createBillLoop_nonneg :
    ∀ (items : List (String × Int)) (cat : Catalog) (acc : List BillItem)
      (st tt : ℚ), catNonneg cat →
      catNonneg (createBillLoop cat items acc st tt).2 := by
  intro items
  induction items with
  | nil =>
      intro cat acc st tt hc
      simpa [createBillLoop] using hc
  | cons e rest ih =>
      intro cat acc st tt hc
      obtain ⟨pid, q⟩ := e
      cases hfp : findProduct cat pid with
      | none => simpa [createBillLoop, hfp] using hc
      | some product =>
        by_cases hlt : product.quantity < q
        · simpa [createBillLoop, hfp, hlt] using hc
        · simp only [createBillLoop, hfp, if_neg hlt]
          apply ih
          apply catNonneg_dictInsert hc
          show 0 ≤ product.quantity - q
          omega

theorem createBillLoop_isOk :
    ∀ (items : List (String × Int)) (cat : Catalog) (acc : List BillItem)
      (st tt : ℚ), catKeyed cat → (items.map Prod.fst).Nodup →
      (createBillLoop cat items acc st tt).1.isOk = items.all (entryValid cat) := by
  intro items
  induction items with
  | nil =>
      intro cat acc st tt hk hn
      simp [createBillLoop, Except.isOk, Except.toBool]
  | cons e rest ih =>
      intro cat acc st tt hk hn
      obtain ⟨pid, q⟩ := e
      simp only [List.map_cons, List.nodup_cons] at hn
      obtain ⟨hnotin, hnd⟩ := hn
      cases hfp : findProduct cat pid with
      | none => simp [createBillLoop, hfp, entryValid, List.all_cons, Except.isOk, Except.toBool]
      | some product =>
        by_cases hlt : product.quantity < q
        · have : ¬ (q ≤ product.quantity) := not_le.mpr hlt
          simp [createBillLoop, hfp, hlt, entryValid, List.all_cons, this, Except.isOk, Except.toBool]
        · simp only [createBillLoop, hfp, if_neg hlt, List.all_cons]
          have hpid : product.id = pid := catKeyed_findProduct hk hfp
          have hk2 : catKeyed
              (update_product cat { product with quantity := product.quantity - q }) :=
            catKeyed_dictInsert hk rfl
          rw [ih _ _ _ _ hk2 hnd]
          have hcong : rest.all (entryValid
              (update_product cat { product with quantity := product.quantity - q })) =
              rest.all (entryValid cat) := by
            apply list_all_congr
            intro x hx
            have hxne : x.1 ≠ product.id := by
              rw [hpid]
              intro hcontra
              exact hnotin (hcontra ▸ List.mem_map_of_mem Prod.fst hx)
            simp only [entryValid]
            rw [show update_product cat { product with quantity := product.quantity - q } =
                dictInsert cat product.id { product with quantity := product.quantity - q }
                from rfl, findProduct_dictInsert, if_neg hxne]
          rw [hcong]
          have hhead : entryValid cat (pid, q) = true := by
            simp [entryValid, hfp, not_lt.mp hlt]
          rw [hhead]
          simp

theorem create_bill_catalog (newId : String) (now : DateTime)
    (customer : Customer) (cat : Catalog) (items : List (String × Int)) :
    (create_bill newId now customer cat items).2 =
      (createBillLoop cat items [] 0 0).2 := by
  rcases h : createBillLoop cat items [] 0 0 with ⟨e | ⟨bi, st, tt⟩, cat2⟩ <;>
    simp [create_bill, h]

theorem create_bill_isOk (newId : String) (now : DateTime)
    (customer : Customer) (cat : Catalog) (items : List (String × Int)) :
    (create_bill newId now customer cat items).1.isOk =
      (createBillLoop cat items [] 0 0).1.isOk := by
  rcases h : createBillLoop cat items [] 0 0 with ⟨e | ⟨bi, st, tt⟩, cat2⟩ <;>
    simp [create_bill, h, Except.isOk, Except.toBool]

theorem create_bill_ok_inv {newId : String} {now : DateTime}
    {customer : Customer} {cat : Catalog} {items : List (String × Int)}
    {bill : Bill} {cat2 : Catalog}
    (h : create_bill newId now customer cat items = (Except.ok bill, cat2)) :
    createBillLoop cat items [] 0 0 =
      (Except.ok (bill.items, bill.subtotal, bill.tax_amount), cat2) ∧
    bill.total_amount = bill.subtotal + bill.tax_amount := by
  unfold create_bill at h
  rcases hr : createBillLoop cat items [] 0 0 with ⟨e | ⟨bi, st, tt⟩, catl⟩ <;>
    rw [hr] at h
  · simp at h
  · simp only [Prod.mk.injEq, Except.ok.injEq] at h
    obtain ⟨hb, hc⟩ := h
    subst hc
    rw [← hb]
    exact ⟨rfl, rfl⟩

theorem update_product_quantity_nonneg {cat : Catalog} {pid : String}
    {n : Int} (hc : catNonneg cat) :
    catNonneg (update_product_quantity cat pid n).2 := by
  unfold update_product_quantity
  by_cases hn : n < 0
  · simpa [hn] using hc
  · cases hfp : findProduct cat pid with
    | none => simpa [hn, hfp] using hc
    | some p =>
        simp only [hn, hfp, if_neg]
        apply catNonneg_dictInsert hc
        show 0 ≤ n
        omega

/-! ## Claims -/

/-- C2: starting from a catalog in which no quantity on hand is
negative, no sequence of committed operations — billing transactions
(`create_bill`, including ones that fail part-way) and quantity
updates (`update_product_quantity`) — ever makes any product's
persisted quantity on hand negative. -/
theorem c2_quantity_never_negative (cat : Catalog) (h : catNonneg cat)
    (ops : List Op) : catNonneg (applyOps cat ops) := by
  induction ops generalizing cat with
  | nil => simpa [applyOps] using h
  | cons op rest ih =>
      rw [applyOps, List.foldl_cons]
      apply ih
      cases op with
      | bill newId now customer items =>
          rw [applyOp, create_bill_catalog]
          exact createBillLoop_nonneg items cat [] 0 0 h
      | setQuantity pid n =>
          exact update_product_quantity_nonneg h

/-- Witness for C2 at a concrete catalog and operation sequence: a
sale of 10 units of rice followed by a restock of the cola. -/
theorem c2_witness :
    catNonneg catalogTwo ∧
    catNonneg (applyOps catalogTwo
      [Op.bill "B" time0 custA [("rice_l", 10)], Op.setQuantity "cld001" 7]) :=
  ⟨by decide, c2_quantity_never_negative catalogTwo (by decide)
    [Op.bill "B" time0 custA [("rice_l", 10)], Op.setQuantity "cld001" 7]⟩

/-- C7 (amended): `get_low_stock_alerts` produces one alert exactly
for each product whose quantity on hand is strictly below its minimum
stock level, in catalog order, with suggested reorder quantity
`100 - quantity` — while the formula `max(50, 2 * min_stock_level)`
the claim names is used only by the shadowed (unreachable) first
definition of `check_stock_levels`. -/
theorem c7_low_stock_alerts (cat : Catalog) :
    get_low_stock_alerts cat =
      ((cat.map Prod.snd).filter
        fun p => decide (p.quantity < p.min_stock_level)).map codeAlert ∧
    check_stock_levels_shadowed cat =
      ((cat.map Prod.snd).filter
        fun p => decide (p.quantity < p.min_stock_level)).map specAlert := by
  constructor
  · show get_low_stock_products cat = _
    unfold get_low_stock_products
    induction cat.map Prod.snd with
    | nil => rfl
    | cons p l ih =>
        by_cases hp : p.quantity < p.min_stock_level <;>
          simp [List.filterMap_cons, List.filter_cons, hp, ih, codeAlert]
  · unfold check_stock_levels_shadowed
    induction cat.map Prod.snd with
    | nil => rfl
    | cons p l ih =>
        by_cases hp : p.quantity < p.min_stock_level <;>
          simp [List.filterMap_cons, List.filter_cons, hp, ih, specAlert]

/-- C7 counterexample: for a product with 20 on hand and minimum
stock 30, the alert actually produced suggests reordering
`100 - 20 = 80` units, not `max(50, 2 * 30) = 60` as the claim
states. -/
theorem c7_counterexample :
    get_low_stock_alerts catalogLow = [codeAlert sampleThing] ∧
    (codeAlert sampleThing).suggested_order_quantity = 80 ∧
    (specAlert sampleThing).suggested_order_quantity = 60 ∧
    get_low_stock_alerts catalogLow ≠ [specAlert sampleThing] := by
  decide

/-- C9: the daily sales summary reports, for the bills whose creation
timestamp falls on the requested calendar date: their count, the sum
of their total amounts, the total number of line items, and an
average bill value that is total sales over count for a non-empty day
and 0 for an empty one. -/
theorem c9_daily_summary (bills : List Bill) (d : DateTime) :
    (get_daily_sales_summary bills d).total_bills =
      (bills.filter fun b => decide (b.created_at.date = d.date)).length ∧
    (get_daily_sales_summary bills d).total_sales =
      ((bills.filter fun b => decide (b.created_at.date = d.date)).map
        Bill.total_amount).sum ∧
    (get_daily_sales_summary bills d).total_items =
      ((bills.filter fun b => decide (b.created_at.date = d.date)).map
        fun b => b.items.length).sum ∧
    (get_daily_sales_summary bills d).average_bill_value =
      (if (bills.filter fun b => decide (b.created_at.date = d.date)).length = 0
        then 0
        else ((bills.filter fun b => decide (b.created_at.date = d.date)).map
          Bill.total_amount).sum /
          ((bills.filter fun b => decide (b.created_at.date = d.date)).length : ℚ)) := by
  have hfe : (fun (b : Bill) => b.created_at.date == d.date) =
      (fun b => decide (b.created_at.date = d.date)) := by
    funext b
    by_cases hb : b.created_at.date = d.date <;> simp [hb]
  unfold get_daily_sales_summary
  rw [hfe]
  refine ⟨rfl, rfl, rfl, ?_⟩
  dsimp only
  by_cases h0 : (bills.filter fun b => decide (b.created_at.date = d.date)).length = 0
  · simp [h0]
  · rw [if_pos (Nat.pos_of_ne_zero h0), if_neg h0]

/-- C10: `update_product p` binds `p.id` to `p` and leaves the
persisted record of every other product identifier unchanged. -/
theorem c10_update_product_frame (cat : Catalog) (p : Product) (x : String) :
    findProduct (update_product cat p) x =
      if x = p.id then some p else findProduct cat x :=
  findProduct_dictInsert cat p.id p x

/-- C1: evaluation at the failing input.  Requesting 10 units of
rice (valid) and then 150 colas (insufficient: only 100 on hand)
produces no Bill, as the claim states — but the persisted catalog is
NOT unchanged: the rice line's decrement (100 → 90) was already
persisted before the cola line was validated, because the code calls
`db.update_product` inside the validation loop. -/
theorem c1_partial_commit :
    (create_bill "B1" time0 custA catalogTwo
      [("rice_l", 10), ("cld001", 150)]).1 =
      Except.error (BillError.insufficientStock "Coca Cola 500ml" 100) ∧
    Option.map Product.quantity
      (findProduct (create_bill "B1" time0 custA catalogTwo
        [("rice_l", 10), ("cld001", 150)]).2 "rice_l") = some 90 ∧
    Option.map Product.quantity (findProduct catalogTwo "rice_l") = some 100 := by
  decide

/-- C3 counterexample: a requested quantity of `-5` is NOT rejected —
`create_bill` performs no positivity check, so the line passes the
stock check (`100 < -5` is false), a Bill is produced, and the
catalog is mutated (the quantity on hand increases from 100 to 105). -/
theorem c3_counterexample :
    (create_bill "B3" time0 custA catalogA [("rice_l", -5)]).1.isOk = true ∧
    Option.map Product.quantity
      (findProduct (create_bill "B3" time0 custA catalogA
        [("rice_l", -5)]).2 "rice_l") = some 105 := by
  decide

/-- C3 (amended): the non-positive-quantity check lives in the
separate helper `validate_quantity` (called per line by the GUI
before `create_bill`), which rejects a non-positive quantity before
any catalog lookup: its result on such input is the same for every
catalog. -/
theorem c3_validate_quantity_rejects (cat : Catalog) (product_id : String)
    (quantity : Int) (h : quantity ≤ 0) :
    validate_quantity cat product_id quantity =
      (false, "Quantity must be greater than 0") := by
  unfold validate_quantity
  rw [if_pos h]

/-- Witness for C3's amended theorem at quantity `-3`. -/
theorem c3_witness :
    (-3 : Int) ≤ 0 ∧
    validate_quantity catalogA "rice_l" (-3) =
      (false, "Quantity must be greater than 0") :=
  ⟨by decide, c3_validate_quantity_rejects catalogA "rice_l" (-3) (by decide)⟩

/-- C4: every Bill produced by a successful `create_bill` satisfies
`totalAmount = subtotal + totalTax`, `subtotal = sum(lineTotal)` and
`totalTax = sum(lineTax)` exactly. -/
theorem c4_bill_totals {newId : String} {now : DateTime}
    {customer : Customer} {cat : Catalog} {items : List (String × Int)}
    {bill : Bill} {cat2 : Catalog}
    (h : create_bill newId now customer cat items = (Except.ok bill, cat2)) :
    bill.total_amount = bill.subtotal + bill.tax_amount ∧
    bill.subtotal = (bill.items.map BillItem.total_price).sum ∧
    bill.tax_amount = (bill.items.map BillItem.tax_amount).sum := by
  obtain ⟨hloop, htot⟩ := create_bill_ok_inv h
  obtain ⟨newItems, h1, h2, h3⟩ :=
    createBillLoop_ok_sums items cat [] 0 0 _ cat2 hloop
  simp only [List.nil_append, zero_add] at h1 h2 h3
  refine ⟨htot, ?_, ?_⟩
  · rw [show bill.items = newItems from h1]
    exact h2
  · rw [show bill.items = newItems from h1]
    exact h3

/-- Witness for C4 at Scenario A. -/
theorem c4_witness :
    billA.total_amount = billA.subtotal + billA.tax_amount ∧
    billA.subtotal = (billA.items.map BillItem.total_price).sum ∧
    billA.tax_amount = (billA.items.map BillItem.tax_amount).sum :=
  c4_bill_totals (show create_bill "BILL1" time0 custA catalogA
      [("rice_l", 10)] = (Except.ok billA, catalogAfterA) by
    norm_num [create_bill, createBillLoop, findProduct, update_product,
      dictInsert, catalogA, sampleRice, custA, time0, billA, catalogAfterA])

/-- C5: every line of a successful bill records the catalog product's
name and unit price as snapshots, with line total = unit price x
quantity and line tax = line total x tax rate; and at Scenario A
(`"rice_l"` priced 3.00, tax 0.05, quantity 100), a sale of 10 units
yields line total 30.00, line tax 1.50, total 31.50, and quantity on
hand 90. -/
theorem c5_line_computation :
    (∀ (newId : String) (now : DateTime) (customer : Customer)
      (cat : Catalog) (items : List (String × Int)) (bill : Bill)
      (cat2 : Catalog),
      catKeyed cat →
      create_bill newId now customer cat items = (Except.ok bill, cat2) →
      ∀ it ∈ bill.items, ∃ p : Product,
        findProduct cat it.product_id = some p ∧
        it.product_name = p.name ∧ it.unit_price = p.price ∧
        it.total_price = p.price * (it.quantity : ℚ) ∧
        it.tax_amount = it.total_price * p.tax_rate) ∧
    create_bill "BILL1" time0 custA catalogA [("rice_l", 10)] =
      (Except.ok billA, catalogAfterA) := by
  constructor
  · intro newId now customer cat items bill cat2 hk h it hit
    obtain ⟨hloop, -⟩ := create_bill_ok_inv h
    rcases createBillLoop_ok_items items cat [] 0 0 _ cat2 hk hloop it hit with
      hacc | hgood
    · simp at hacc
    · exact hgood
  · norm_num [create_bill, createBillLoop, findProduct, update_product,
      dictInsert, catalogA, sampleRice, custA, time0, billA, catalogAfterA]

/-- Witness for C5's universal part at Scenario A's single line. -/
theorem c5_witness :
    ∃ p : Product, findProduct catalogA "rice_l" = some p ∧
      "Rice 1kg" = p.name ∧ (3 : ℚ) = p.price ∧
      (30 : ℚ) = p.price * ((10 : Int) : ℚ) ∧
      (3/2 : ℚ) = 30 * p.tax_rate := by
  have h := c5_line_computation
  have h2 := h.1 "BILL1" time0 custA catalogA [("rice_l", 10)] billA
    catalogAfterA (by decide) h.2
    ⟨"rice_l", "Rice 1kg", 10, 3, 30, 3/2⟩ (by simp [billA])
  simpa [billA] using h2

/-- C6 counterexample: two requests that differ only in the requested
quantity (150 vs 101 units of rice, both exceeding the 100 on hand)
produce exactly the same outcome — the same `InsufficientStock`
failure naming the product and the available quantity, and the same
catalog — so the failure does not name the requested quantity. -/
theorem c6_counterexample :
    create_bill "B6" time0 custA catalogTwo [("rice_l", 150)] =
      create_bill "B6" time0 custA catalogTwo [("rice_l", 101)] := rfl

/-- C6 (amended): for a well-keyed catalog and a duplicate-free
request, `create_bill` succeeds iff every entry names an existing
product with enough stock; a first entry naming a missing product
fails with `ProductNotFound` naming that identifier; a first entry
over stock fails with `InsufficientStock` naming the product and the
available quantity (but not the requested one). -/
theorem c6_validation_errors (newId : String) (now : DateTime)
    (customer : Customer) (cat : Catalog) (items : List (String × Int))
    (hk : catKeyed cat) (hnd : (items.map Prod.fst).Nodup) :
    ((create_bill newId now customer cat items).1.isOk =
      items.all (entryValid cat)) ∧
    (∀ pid q rest, items = (pid, q) :: rest → findProduct cat pid = none →
      (create_bill newId now customer cat items).1 =
        Except.error (BillError.productNotFound pid)) ∧
    (∀ pid q rest p, items = (pid, q) :: rest →
      findProduct cat pid = some p → p.quantity < q →
      (create_bill newId now customer cat items).1 =
        Except.error (BillError.insufficientStock p.name p.quantity)) := by
  refine ⟨?_, ?_, ?_⟩
  · rw [create_bill_isOk]
    exact createBillLoop_isOk items cat [] 0 0 hk hnd
  · intro pid q rest hitems hfp
    subst hitems
    simp [create_bill, createBillLoop, hfp]
  · intro pid q rest p hitems hfp hlt
    subst hitems
    simp [create_bill, createBillLoop, hfp, hlt]

/-- Witness for C6's amended theorem: requesting 150 colas against
100 on hand fails, matching the entry-validity predicate. -/
theorem c6_witness :
    (create_bill "B" time0 custA catalogTwo [("cld001", 150)]).1.isOk =
      [("cld001", (150 : Int))].all (entryValid catalogTwo) :=
  (c6_validation_errors "B" time0 custA catalogTwo [("cld001", 150)]
    (by decide) (by decide)).1

/-- C8: updating a product record never changes any stored bill
(line items, totals and taxes are snapshots held inside the bill);
concretely, after selling 1 widget at price 10 and then repricing the
widget to 20, the stored bill still carries unit price 10, line total
10 and total amount 10. -/
theorem c8_snapshot_immutability :
    (∀ (s : SysState) (p : Product) (bid : String),
      get_bill_by_id (update_productS s p).bills bid =
        get_bill_by_id s.bills bid) ∧
    (create_billS "B8" time0 custA [("p10", 1)] stateW).2.bills = [billW] ∧
    get_bill_by_id
      (update_productS (create_billS "B8" time0 custA [("p10", 1)] stateW).2
        { sampleWidget with price := 20 }).bills "B8" = some billW ∧
    billW.items.map BillItem.unit_price = [10] ∧
    billW.items.map BillItem.total_price = [10] ∧
    billW.total_amount = 10 := by
  refine ⟨fun s p bid => rfl, ?_, ?_, ?_, ?_, ?_⟩
  · norm_num [create_billS, create_bill, createBillLoop, findProduct,
      update_product, dictInsert, stateW, sampleWidget, custA, time0, billW]
  · norm_num [create_billS, create_bill, createBillLoop, findProduct,
      update_product, dictInsert, stateW, sampleWidget, custA, time0, billW,
      update_productS, get_bill_by_id, List.find?]
  · norm_num [billW]
  · norm_num [billW]
  · norm_num [billW]

end SuperMarketBot
